import Mathlib

/-!
Verification of the `ietfdata` datatracker client (`ietfdata/datatracker.py`)
against its natural-language specification.

The development shallowly embeds the retrieval engine of the `DataTracker`
class: the URI data model (`URI`, `DocumentURI`), the cache-path derivation
(`_cache_filepath`), the rate limiter (`_rate_limit`), the single-record
fetch (`_retrieve`), the paginated collection fetch (`_retrieve_multi`) and
a few endpoint-catalog parameter builders (`people`, `documents`,
`document_from_rfc`).

Modelling conventions:
  * Python dicts with string keys are association lists processed with
    Python's assignment semantics (`dictSet`).
  * Query-parameter values are `Any` in the source; they are modelled by
    `PVal` (string, int, or Python `None`).
  * Times are exact: the retry delay `1.875` seconds and its doublings are
    represented in milliseconds (1875, 3750, ...), which is exact because
    1.875 = 15/8 and binary floating point doubles exactly.
  * The HTTP server is a script of responses consumed one per GET request;
    `sys.exit(1)` is the `fatal` outcome carrying what the code prints.
  * Python string slicing/tests are modelled on the character list
    (`String.data`) of the Lean string.
-/

-- =======================================================================
-- Query-parameter values.  The source stores `Any` in `URI.params`; the
-- endpoint catalog in fact stores strings, ints, and Python `None`.
inductive PVal where
  | s : String → PVal
  | i : Int → PVal
  | null : PVal
deriving DecidableEq, Repr

-- A Python dict with string keys, as an insertion-ordered association list.
abbrev Params : Type := List (String × PVal)

-- Python dict assignment `d[k] = v`: overwrite in place if the key exists,
-- otherwise append at the end (Python dicts preserve insertion order).
def dictSet : Params → String → PVal → Params
  | [], k, v => [(k, v)]
  | (k', v') :: rest, k, v =>
      if k' = k then (k', v) :: rest else (k', v') :: dictSet rest k v

-- =======================================================================
-- URI data model (`class URI`, datatracker.py lines 69-72): a frozen
-- dataclass holding a path string and a params dict.
structure URI where
  uri    : String
  params : Params
deriving DecidableEq, Repr

-- Python `s.startswith(pre)` on the character list of the string.
def pyStartsWith (s pre : String) : Bool :=
  pre.data.isPrefixOf s.data

-- The prefix asserted by `DocumentURI.__post_init__` (lines 75-78).
def documentUriStart : String := "/api/v1/doc/document/"

-- `DocumentURI(uri, params)` (lines 75-78): the frozen dataclass constructor
-- runs `__post_init__`, which asserts `self.uri.startswith("/api/v1/doc/document/")`.
-- A failed assert is modelled as `none`; success yields the identifier with
-- both fields exactly as passed.
def mkDocumentURI (uri : String) (params : Params) : Option URI :=
  if pyStartsWith uri documentUriStart then some ⟨uri, params⟩ else none

-- =======================================================================
-- Cache path derivation.

-- Python `s[1:-1]`: the characters strictly between the first and the last.
def pySlice1m1 (s : String) : String :=
  ⟨(s.data.drop 1).dropLast⟩

-- `_cache_filepath` (lines 1330-1332):
-- `Path(self.cache_dir, resource_uri.uri[1:-1] + ".json")`.
-- Path joining is rendered with "/".  Note the function reads only the
-- `uri` field of the identifier, never `params`.
def cacheFilepath (cacheDir : String) (r : URI) : String :=
  cacheDir ++ "/" ++ pySlice1m1 r.uri ++ ".json"

-- Modelled from the spec: "the path with leading/trailing slash stripped".
-- Strips one leading '/' and one trailing '/' when present.
def specStripSlash (s : String) : String :=
  let d1 := if s.data.head? = some '/' then s.data.drop 1 else s.data
  let d2 := if d1.getLast? = some '/' then d1.dropLast else d1
  ⟨d2⟩

-- Modelled from the spec: "path = cache-root + (identifier path with
-- leading/trailing slash stripped) + .json".  This is the spec-side formula
-- that claim C8 compares against `cacheFilepath` above.
def specCachePath (cacheDir : String) (r : URI) : String :=
  cacheDir ++ "/" ++ specStripSlash r.uri ++ ".json"

-- =======================================================================
-- Rate limiter (`_rate_limit`, lines 1356-1362).  Called before every HTTP
-- GET that is not a 500-retry.  Increments `self.http_req`; when the new
-- count is a multiple of 100 it closes the session, so the connection is
-- cycled before that GET is sent.  Returns (new counter, connection cycled).
def rateLimit (httpReq : Nat) : Nat × Bool :=
  (httpReq + 1, (httpReq + 1) % 100 == 0)

-- =======================================================================
-- Engine state for the single-record fetch: the request counter, the
-- optional cache directory, and the cache files on disk (path ↦ JSON),
-- newest write first so `List.lookup` sees the latest content.
structure Engine (J : Type) where
  httpReq  : Nat
  cacheDir : Option String
  cache    : List (String × J)
deriving Repr

-- `self.base_url` (line 1277).
def baseUrl : String := "https://datatracker.ietf.org"

-- One HTTP response to a single-record GET: status code and JSON body
-- (`r.json()`, only read when the status is 200).
structure SingleResp (J : Type) where
  status : Nat
  body   : J
deriving Repr

-- `_obj_is_cached` (lines 1335-1338): False when no cache dir is set,
-- otherwise whether the cache file for this identifier exists.
def objIsCached {J : Type} (e : Engine J) (r : URI) : Bool :=
  match e.cacheDir with
  | none => false
  | some d => (List.lookup (cacheFilepath d r) e.cache).isSome

-- `_cache_obj` (lines 1348-1353): writes the JSON to the cache file iff a
-- cache dir is set (parent-directory creation has no observable effect in
-- the model).
def cacheObj {J : Type} (e : Engine J) (r : URI) (j : J) : Engine J :=
  match e.cacheDir with
  | none => e
  | some d => { e with cache := (cacheFilepath d r, j) :: e.cache }

-- Result of one `_retrieve` call: the engine state afterwards, how many
-- network requests were issued, whether the rate limiter cycled the
-- connection, and the outcome.  `.error (status, url)` models the
-- `print(...); sys.exit(1)` path, carrying exactly what is printed;
-- `.ok none` models the 404 `return None`; `.ok (some t)` is the record
-- produced by `pavlova.from_mapping` (modelled by the pure function `pav`).
structure RetrieveOut (J T : Type) where
  engine      : Engine J
  netRequests : Nat
  cycled      : Bool
  result      : Except (Nat × String) (Option T)

-- The network path of `_retrieve` (lines 1370-1379): rate limit, one GET,
-- then branch on the status code.
def retrieveNet {J T : Type} (net : URI → SingleResp J) (pav : J → T)
    (e : Engine J) (r : URI) : RetrieveOut J T :=
  let rl := rateLimit e.httpReq
  let e1 : Engine J := { e with httpReq := rl.1 }
  let resp := net r
  if resp.status = 200 then
    ⟨cacheObj e1 r resp.body, 1, rl.2, .ok (some (pav resp.body))⟩
  else if resp.status = 404 then
    ⟨e1, 1, rl.2, .ok none⟩
  else
    ⟨e1, 1, rl.2, .error (resp.status, baseUrl ++ r.uri)⟩

-- `_retrieve` (lines 1365-1381): if the object is cached, read it from the
-- cache file and deserialize it without touching the network; otherwise go
-- to the network.
def retrieve {J T : Type} (net : URI → SingleResp J) (pav : J → T)
    (e : Engine J) (r : URI) : RetrieveOut J T :=
  match e.cacheDir with
  | some d =>
    match List.lookup (cacheFilepath d r) e.cache with
    | some j => ⟨e, 0, false, .ok (some (pav j))⟩
    | none => retrieveNet net pav e r
  | none => retrieveNet net pav e r

-- =======================================================================
-- Collection fetch (`_retrieve_multi`, lines 1383-1412).

-- One HTTP response to a collection-page GET.  For a 200 the body is the
-- Tastypie envelope, of which the code reads `meta.next` (the next-page URI,
-- null on the last page) and `objects` (the page's item list); for any other
-- status the body is not read.
structure PageResponse (α : Type) where
  status  : Nat
  next    : Option String
  objects : List α
deriving DecidableEq, Repr

-- How a `_retrieve_multi` run ended.
-- `completed`: the while loop exited because the next-page pointer was null.
-- `fatal s n`: `print("_retrieve_multi failed: error s after n requests"); sys.exit(1)`,
--   carrying the printed status and the engine counter `self.http_req`.
-- `starved`: model artifact — the scripted response list ran out with a GET
--   still pending (no counterpart in the source, which always gets a response).
inductive MultiOutcome where
  | completed : MultiOutcome
  | fatal : Nat → Nat → MultiOutcome
  | starved : MultiOutcome
deriving DecidableEq, Repr

-- Observable trace of one `_retrieve_multi` run:
--   requests    — the (uri, explicit params) of every HTTP GET issued, in order;
--   rateLimited — how many times `_rate_limit` ran (= increments of http_req);
--   sleeps      — the `time.sleep` backoff durations, in milliseconds;
--   yielded     — every record yielded by the generator, in order;
--   outcome     — how the run ended.
structure MultiRun (α : Type) where
  requests    : List (String × Params)
  rateLimited : Nat
  sleeps      : List Nat
  yielded     : List α
  outcome     : MultiOutcome
deriving DecidableEq, Repr

-- The body of `_retrieve_multi` after the `limit` parameter has been forced
-- (lines 1387-1412), with the two nested loops flattened into one recursion
-- over the response script:
--   h        — self.http_req before this step;
--   uri/ps   — the current `resource_uri` (None terminates the outer loop);
--   rt       — `retry_time` in milliseconds (1875 on entering a page);
--   retrying — whether this GET is a 500-retry (then `_rate_limit` is NOT
--              called again: it runs once per outer-loop iteration only).
-- On a 200 the loop advances to `URI(meta.next)` — a fresh URI whose params
-- dict is the dataclass default `{}` — and yields the page's objects.
-- On a 500 with rt > 60000 ms, or on any other non-200 status, it prints
-- the status and `self.http_req` and exits.  On a retryable 500 it sleeps
-- rt, doubles rt, and re-issues the GET for the same page.
def rmRun {α : Type} : Nat → Option String → Params → Nat → Bool →
    List (PageResponse α) → MultiRun α
  | _, none, _, _, _, _ => ⟨[], 0, [], [], .completed⟩
  | _, some _, _, _, retrying, [] =>
      ⟨[], if retrying then 0 else 1, [], [], .starved⟩
  | h, some u, ps, rt, retrying, r :: rest =>
      let h' := if retrying then h else h + 1
      let rl : Nat := if retrying then 0 else 1
      if r.status = 200 then
        let tail := rmRun h' r.next [] 1875 false rest
        ⟨(u, ps) :: tail.requests, rl + tail.rateLimited, tail.sleeps,
         r.objects ++ tail.yielded, tail.outcome⟩
      else if r.status = 500 then
        if 60000 < rt then
          ⟨[(u, ps)], rl, [], [], .fatal 500 h'⟩
        else
          let tail := rmRun h' (some u) ps (rt * 2) true rest
          ⟨(u, ps) :: tail.requests, rl + tail.rateLimited, rt :: tail.sleeps,
           tail.yielded, tail.outcome⟩
      else
        ⟨[(u, ps)], rl, [], [], .fatal r.status h'⟩

-- `_retrieve_multi` entry (lines 1383-1387): force the page size via
-- `resource_uri.params["limit"] = "100"`, then run the pagination loop.
def retrieveMulti {α : Type} (h0 : Nat) (uri0 : String) (ps0 : Params)
    (rs : List (PageResponse α)) : MultiRun α :=
  rmRun h0 (some uri0) (dictSet ps0 "limit" (PVal.s "100")) 1875 false rs

-- =======================================================================
-- A model of the server's paginated view of a dataset, one response per
-- page, mirroring Tastypie: with `limit=100`, the page at a given offset
-- holds the next (up to) 100 items and carries a next-page URI exactly when
-- more than 100 items remain at that offset.
def pageScript {α : Type} (items : List α) : List (PageResponse α) :=
  if _h : 100 < items.length
  then ⟨200, some "/api/v1/next-page", items.take 100⟩ :: pageScript (items.drop 100)
  else [⟨200, none, items.take 100⟩]
termination_by items.length
decreasing_by
  simp [List.length_drop]
  omega

-- Well-formed all-200 scripts: every page has status 200 and a `some` next
-- pointer, except the last, whose next pointer is null.
inductive GoodScript {α : Type} : List (PageResponse α) → Prop where
  | last (objs : List α) : GoodScript [⟨200, none, objs⟩]
  | cons (u : String) (objs : List α) {s : List (PageResponse α)} :
      GoodScript s → GoodScript (⟨200, some u, objs⟩ :: s)

-- The chain of next-page URIs announced by a script, up to the first null.
def scriptNexts {α : Type} : List (PageResponse α) → List String
  | [] => []
  | r :: rest =>
    match r.next with
    | some v => v :: scriptNexts rest
    | none => []

-- =======================================================================
-- Endpoint catalog parameter builders.

-- `people` (lines 1452-1472): builds `PersonURI("/api/v1/person/person/")`
-- and then assigns, in order,
--   url.params["time__gte"]       = since
--   url.params["time__lt"]        = until
--   url.params["name__contains"]  = name_contains   (an Optional[str]!)
-- Note the last assignment is unconditional: a missing filter stores None.
def peopleParams (since until_ : String) (name_contains : Option String) : Params :=
  dictSet (dictSet (dictSet [] "time__gte" (PVal.s since))
    "time__lt" (PVal.s until_))
    "name__contains" (match name_contains with | some v => PVal.s v | none => PVal.null)

-- `documents` (lines 1533-1545): builds `DocumentURI("/api/v1/doc/document/")`,
-- assigns the two time bounds unconditionally, then adds
--   url.params["type"]  = doctype.slug   only if doctype is not None
--   url.params["group"] = group.id       only if group is not None.
-- The doctype is represented by its slug (a string) and the group by its id
-- (an int), the only fields the source reads.
def documentsParams (since until_ : String) (doctype : Option String)
    (group : Option Int) : Params :=
  let p1 := dictSet (dictSet [] "time__gt" (PVal.s since)) "time__lt" (PVal.s until_)
  let p2 := match doctype with
            | some slug => dictSet p1 "type" (PVal.s slug)
            | none => p1
  match group with
  | some gid => dictSet p2 "group" (PVal.i gid)
  | none => p2

-- =======================================================================
-- `document_from_rfc` (lines 1585-1602).

-- One DocumentAlias record, of which the function reads only the `document`
-- field (the DocumentURI of the draft that became the RFC).
structure DocAlias where
  document : String
deriving DecidableEq, Repr

-- Observable behaviour of one `document_from_rfc` call:
--   aliasLookups — number of `document_aliases` collection lookups issued;
--   docFetches   — number of `document` single fetches issued;
--   result       — `.error ()` models `raise RuntimeError`; `.ok` carries
--                  the Optional[Document] return value.
structure RfcLookup (δ : Type) where
  aliasLookups : Nat
  docFetches   : Nat
  result       : Except Unit (Option δ)
deriving Repr

-- `document_from_rfc(rfc)`: after asserting the name starts with "rfc", it
-- runs `docs = list(self.document_aliases(name=rfc.lower()))` — exactly one
-- alias lookup — then branches on `len(docs)`: 0 returns None, 1 fetches
-- and returns the single document, otherwise `raise RuntimeError`.
-- `aliases` is what the alias lookup returned; `fetchDoc` is the
-- Optional[Document] result of `self.document` for a given DocumentURI.
def documentFromRfc {δ : Type} (aliases : List DocAlias)
    (fetchDoc : String → Option δ) : RfcLookup δ :=
  match aliases with
  | [] => ⟨1, 0, .ok none⟩
  | [a] => ⟨1, 1, .ok (fetchDoc a.document)⟩
  | _ => ⟨1, 0, .error ()⟩

-- =======================================================================
-- Theorems.

/-- C1: in every collection fetch (`_retrieve_multi`), an HTTP 500 response
is retried with the backoff sequence 1.875s, 3.75s, 7.5s, 15s, 30s, 60s
(milliseconds 1875·2^i here, each attempt doubling the delay): a page
answered by k ≤ 6 consecutive 500s and then a 200 is fetched with exactly
those k backoff sleeps and k+1 requests and still completes; a seventh
consecutive 500 — the point where the next backoff 120s would exceed 60s —
abandons the fetch fatally after the six sleeps, reporting the engine's
request count so far (`self.http_req`, here h0+1); and a response whose
status is neither 200 nor 500 is never retried: one request, no sleep,
immediately fatal. -/
theorem c1_retry_backoff {α : Type} (h0 : Nat) (u : String) (ps : Params)
    (objs : List α) (rest : List (PageResponse α)) (s : Nat) :
    (∀ k, k ≤ 6 →
      (retrieveMulti h0 u ps (List.replicate k ⟨500, none, []⟩ ++ [⟨200, none, objs⟩])).sleeps
        = (List.range k).map (fun i => 1875 * 2 ^ i) ∧
      (retrieveMulti h0 u ps (List.replicate k ⟨500, none, []⟩ ++ [⟨200, none, objs⟩])).requests.length
        = k + 1 ∧
      (retrieveMulti h0 u ps (List.replicate k ⟨500, none, []⟩ ++ [⟨200, none, objs⟩])).outcome
        = .completed ∧
      (retrieveMulti h0 u ps (List.replicate k ⟨500, none, []⟩ ++ [⟨200, none, objs⟩])).yielded
        = objs) ∧
    ((retrieveMulti h0 u ps (List.replicate 7 ⟨500, none, []⟩ ++ rest)).sleeps
        = [1875, 3750, 7500, 15000, 30000, 60000] ∧
     (retrieveMulti h0 u ps (List.replicate 7 ⟨500, none, []⟩ ++ rest)).requests.length = 7 ∧
     (retrieveMulti h0 u ps (List.replicate 7 ⟨500, none, []⟩ ++ rest)).outcome
        = .fatal 500 (h0 + 1)) ∧
    (s ≠ 200 → s ≠ 500 →
     (retrieveMulti h0 u ps (⟨s, none, []⟩ :: rest)).requests.length = 1 ∧
     (retrieveMulti h0 u ps (⟨s, none, []⟩ :: rest)).sleeps = [] ∧
     (retrieveMulti h0 u ps (⟨s, none, []⟩ :: rest)).outcome = .fatal s (h0 + 1)) := by
  refine ⟨?_, ?_, ?_⟩
  · intro k hk
    interval_cases k <;> simp [retrieveMulti, rmRun, List.replicate, List.range_succ]
  · simp [retrieveMulti, rmRun, List.replicate]
  · intro h1 h2
    simp [retrieveMulti, rmRun, h1, h2]

/-- Witness for C1, at concrete inputs: three 500s then a 200 sleep exactly
1.875s, 3.75s, 7.5s; a 403 is fatal at once; seven 500s are fatal after the
six backoffs. -/
theorem c1_retry_backoff_witness :
    (retrieveMulti 0 "/api/v1/person/person/" []
      (List.replicate 3 (⟨500, none, []⟩ : PageResponse Nat) ++ [⟨200, none, [7]⟩])).sleeps
      = [1875, 3750, 7500] ∧
    (retrieveMulti 0 "/api/v1/person/person/" []
      ((⟨403, none, []⟩ : PageResponse Nat) :: [])).outcome = .fatal 403 1 ∧
    (retrieveMulti 0 "/api/v1/person/person/" []
      (List.replicate 7 (⟨500, none, []⟩ : PageResponse Nat) ++ [])).outcome = .fatal 500 1 := by
  refine ⟨?_, ?_, ?_⟩
  · exact (((c1_retry_backoff 0 "/api/v1/person/person/" [] [7] [] 403).1 3
      (by norm_num)).1).trans (by decide)
  · exact ((c1_retry_backoff 0 "/api/v1/person/person/" [] ([] : List Nat) [] 403).2.2
      (by decide) (by decide)).2.2
  · exact (c1_retry_backoff 0 "/api/v1/person/person/" [] ([] : List Nat) [] 403).2.1.2.2

-- Shared lemma: on a well-formed all-200 script, the pagination loop makes
-- one GET per page — the first with the caller's (limit-forced) params, each
-- later one at the server's next-page URI with the empty params dict of
-- `URI(meta.next)` — increments the counter once per page, never sleeps,
-- yields every page's objects in order, and completes when next is null.
theorem rmRun_goodScript {α : Type} {s : List (PageResponse α)} (hg : GoodScript s) :
    ∀ (h0 : Nat) (u : String) (ps : Params) (rt : Nat),
      rmRun h0 (some u) ps rt false s =
        ⟨(u, ps) :: (scriptNexts s).map (fun v => (v, ([] : Params))),
         s.length, [], (s.map PageResponse.objects).flatten, .completed⟩ := by
  induction hg with
  | last objs => intro h0 u ps rt; simp [rmRun, scriptNexts]
  | cons u' objs hg ih => intro h0 u ps rt; simp [rmRun, scriptNexts, ih, Nat.add_comm]

theorem pageScript_good {α : Type} (items : List α) : GoodScript (pageScript items) := by
  rw [pageScript]
  split
  · exact GoodScript.cons _ _ (pageScript_good (items.drop 100))
  · exact GoodScript.last _
termination_by items.length
decreasing_by simp [List.length_drop]; omega

theorem pageScript_objects {α : Type} (items : List α) :
    ((pageScript items).map PageResponse.objects).flatten = items := by
  rw [pageScript]
  split
  · simp [pageScript_objects (items.drop 100)]
  · rename_i h
    have hle : items.length ≤ 100 := by omega
    simp [List.take_of_length_le hle]
termination_by items.length
decreasing_by simp [List.length_drop]; omega

theorem pageScript_length {α : Type} (items : List α) :
    (pageScript items).length = max ((items.length + 99) / 100) 1 := by
  rw [pageScript]
  split
  · rename_i h
    have h2 := pageScript_length (items.drop 100)
    simp only [List.length_cons, h2, List.length_drop]
    have hd : (items.length - 100 + 99) / 100 + 1 = (items.length + 99) / 100 := by
      have : items.length - 100 + 99 + 100 = items.length + 99 := by omega
      rw [← this, Nat.add_div_right _ (by norm_num)]
    omega
  · rename_i h
    have : (items.length + 99) / 100 ≤ 1 := by omega
    simp
    omega
termination_by items.length
decreasing_by simp [List.length_drop]; omega

theorem scriptNexts_length {α : Type} {s : List (PageResponse α)} (hg : GoodScript s) :
    (scriptNexts s).length + 1 = s.length := by
  induction hg <;> simp [scriptNexts, *]

/-- C2 (amended): a collection fetch over a server dataset of N matching
items paginated at the forced page size 100 yields exactly the N records in
server order and terminates (outcome `completed`) exactly when the server's
next-page pointer is null; it makes exactly ceil(N/100) HTTP requests when
N ≥ 1 and — the amendment forced by `c2_pagination_counterexample` — exactly
one request when N = 0, i.e. max(1, ceil(N/100)) in general, because the
loop must ask the server once before it can see the null next pointer of an
empty result. -/
theorem c2_pagination {α : Type} (items : List α) (h0 : Nat) (u : String) (ps : Params) :
    (retrieveMulti h0 u ps (pageScript items)).yielded = items ∧
    (retrieveMulti h0 u ps (pageScript items)).outcome = .completed ∧
    (retrieveMulti h0 u ps (pageScript items)).requests.length
      = max ((items.length + 99) / 100) 1 ∧
    (1 ≤ items.length →
      (retrieveMulti h0 u ps (pageScript items)).requests.length
        = (items.length + 99) / 100) := by
  have h := rmRun_goodScript (pageScript_good items) h0 u
    (dictSet ps "limit" (PVal.s "100")) 1875
  have hlen := scriptNexts_length (pageScript_good items)
  have hpl := pageScript_length items
  refine ⟨?_, ?_, ?_, ?_⟩
  · simp [retrieveMulti, h, pageScript_objects]
  · simp [retrieveMulti, h]
  · simp [retrieveMulti, h]
    omega
  · intro hne
    simp [retrieveMulti, h]
    have : 1 ≤ (items.length + 99) / 100 := by omega
    omega

/-- C2 counterexample: for N = 0 the claim as stated fails — the code makes
one HTTP request on an empty dataset (the loop starts with the identifier
non-null and must fetch a page to see the null next pointer), while
ceil(0/100) = 0 requests were claimed. -/
theorem c2_pagination_counterexample :
    (retrieveMulti 0 "/api/v1/person/person/" [] (pageScript ([] : List Nat))).requests.length = 1 ∧
    (0 + 99) / 100 = 0 := by
  constructor
  · rw [pageScript]
    simp [retrieveMulti, rmRun]
  · decide

/-- Witness for C2 at N = 2: one request, both records yielded in order. -/
theorem c2_pagination_witness :
    (retrieveMulti 0 "/api/v1/person/person/" [] (pageScript ([3, 4] : List Nat))).requests.length
      = (([3, 4] : List Nat).length + 99) / 100 ∧
    (retrieveMulti 0 "/api/v1/person/person/" [] (pageScript ([3, 4] : List Nat))).yielded = [3, 4] :=
  ⟨(c2_pagination [3, 4] 0 "/api/v1/person/person/" []).2.2.2 (by decide),
   (c2_pagination [3, 4] 0 "/api/v1/person/person/" []).1⟩

/-- C3: with caching enabled (a cache dir is set) and identifier `r` not yet
cached, a single-record fetch whose GET returns HTTP 200 performs exactly one
network request, writes the JSON body to the cache file for `r`, and returns
the deserialized record; fetching the identical `r` again performs zero
network requests and returns a result identical to the first (both are
`pavlova.from_mapping` of the same cached JSON). -/
theorem c3_cache_roundtrip {J T : Type} (net : URI → SingleResp J) (pav : J → T)
    (e : Engine J) (r : URI) (d : String)
    (hd : e.cacheDir = some d)
    (hmiss : List.lookup (cacheFilepath d r) e.cache = none)
    (h200 : (net r).status = 200) :
    (retrieve net pav e r).netRequests = 1 ∧
    List.lookup (cacheFilepath d r) (retrieve net pav e r).engine.cache = some (net r).body ∧
    (retrieve net pav e r).result = .ok (some (pav (net r).body)) ∧
    (retrieve net pav (retrieve net pav e r).engine r).netRequests = 0 ∧
    (retrieve net pav (retrieve net pav e r).engine r).result = (retrieve net pav e r).result := by
  simp [retrieve, retrieveNet, cacheObj, rateLimit, hd, hmiss, h200, List.lookup]

/-- Witness for C3: a concrete engine with an empty cache and a server that
answers 200 with body 7 — one request on the first fetch, zero on the
second. -/
theorem c3_cache_roundtrip_witness :
    (retrieve (fun _ => ⟨200, (7 : Nat)⟩) id
      ⟨0, some "cachedir", []⟩ ⟨"/api/v1/person/person/1/", []⟩).netRequests = 1 ∧
    (retrieve (fun _ => ⟨200, (7 : Nat)⟩) id
      ((retrieve (fun _ => ⟨200, (7 : Nat)⟩) id
        ⟨0, some "cachedir", []⟩ ⟨"/api/v1/person/person/1/", []⟩).engine)
      ⟨"/api/v1/person/person/1/", []⟩).netRequests = 0 := by
  have h := c3_cache_roundtrip (fun _ => ⟨200, (7 : Nat)⟩) id
    ⟨0, some "cachedir", []⟩ ⟨"/api/v1/person/person/1/", []⟩ "cachedir" rfl rfl rfl
  exact ⟨h.1, h.2.2.2.1⟩

/-- C9: a single-record fetch (`_retrieve`) that reaches the network (the
identifier is not cached) issues exactly one request and never retries (every
`_retrieve` call issues at most one request); an HTTP 404 yields absence
(`None`), not an error; any status other than 200 and 404 is fatal,
reporting the status code and the failing URL. -/
theorem c9_single_fetch {J T : Type} (net : URI → SingleResp J) (pav : J → T)
    (e : Engine J) (r : URI) (hmiss : objIsCached e r = false) :
    (retrieve net pav e r).netRequests = 1 ∧
    ((net r).status = 404 → (retrieve net pav e r).result = .ok none) ∧
    ((net r).status ≠ 200 → (net r).status ≠ 404 →
       (retrieve net pav e r).result = .error ((net r).status, baseUrl ++ r.uri)) ∧
    (∀ e' : Engine J, (retrieve net pav e' r).netRequests ≤ 1) := by
  have hone : ∀ (e₀ : Engine J), (retrieveNet (T := T) net pav e₀ r).netRequests = 1 := by
    intro e₀
    by_cases h2 : (net r).status = 200
    · simp [retrieveNet, h2]
    · by_cases h4 : (net r).status = 404
      · simp [retrieveNet, h2, h4]
      · simp [retrieveNet, h2, h4]
  have hnet : retrieve net pav e r = retrieveNet net pav e r := by
    rcases hcd : e.cacheDir with _ | d
    · simp [retrieve, hcd]
    · rcases hl : List.lookup (cacheFilepath d r) e.cache with _ | j
      · simp [retrieve, hcd, hl]
      · simp [objIsCached, hcd, hl] at hmiss
  refine ⟨?_, ?_, ?_, ?_⟩
  · rw [hnet, hone]
  · intro h404
    rw [hnet]
    simp [retrieveNet, h404]
  · intro h200 h404
    rw [hnet]
    simp [retrieveNet, h200, h404]
  · intro e'
    rcases hcd : e'.cacheDir with _ | d
    · rw [show retrieve net pav e' r = retrieveNet net pav e' r by simp [retrieve, hcd], hone]
    · rcases hl : List.lookup (cacheFilepath d r) e'.cache with _ | j
      · rw [show retrieve net pav e' r = retrieveNet net pav e' r by simp [retrieve, hcd, hl], hone]
      · simp [retrieve, hcd, hl]

/-- Witness for C9: with no cache dir, a 404 server yields `.ok none` after
one request, and a 403 server yields the fatal error with the status and the
full URL. -/
theorem c9_single_fetch_witness :
    (retrieve (fun _ => ⟨404, (0 : Nat)⟩) id
      ⟨0, none, []⟩ ⟨"/api/v1/person/person/1/", []⟩).netRequests = 1 ∧
    (retrieve (fun _ => ⟨404, (0 : Nat)⟩) id
      ⟨0, none, []⟩ ⟨"/api/v1/person/person/1/", []⟩).result = .ok none ∧
    (retrieve (fun _ => ⟨403, (0 : Nat)⟩) id
      ⟨0, none, []⟩ ⟨"/api/v1/person/person/1/", []⟩).result
      = .error (403, baseUrl ++ "/api/v1/person/person/1/") := by
  have h4 := c9_single_fetch (fun _ => ⟨404, (0 : Nat)⟩) id
    ⟨0, none, []⟩ ⟨"/api/v1/person/person/1/", []⟩ rfl
  have h3 := c9_single_fetch (fun _ => ⟨403, (0 : Nat)⟩) id
    ⟨0, none, []⟩ ⟨"/api/v1/person/person/1/", []⟩ rfl
  exact ⟨h4.1, h4.2.1 rfl, h3.2.2.1 (by decide) (by decide)⟩

-- Shared lemma: in any `_retrieve_multi` run that does not starve the
-- response script, every GET is either the first attempt for a page
-- (preceded by one `_rate_limit` increment) or a 500-retry (preceded by one
-- backoff sleep), so the number of GETs equals the number of counter
-- increments plus the number of sleeps, with one extra pending GET when the
-- run is entered mid-retry.
theorem rmRun_request_count {α : Type} :
    ∀ (rs : List (PageResponse α)) (h : Nat) (uri : Option String) (ps : Params)
      (rt : Nat) (retrying : Bool),
      (rmRun h uri ps rt retrying rs).outcome ≠ .starved →
      (rmRun h uri ps rt retrying rs).requests.length
        = (rmRun h uri ps rt retrying rs).rateLimited
          + (rmRun h uri ps rt retrying rs).sleeps.length
          + (if retrying ∧ uri.isSome then 1 else 0) := by
  intro rs
  induction rs with
  | nil =>
    intro h uri ps rt retrying hns
    cases uri with
    | none => simp [rmRun]
    | some u => simp [rmRun] at hns
  | cons r rest ih =>
    intro h uri ps rt retrying hns
    cases uri with
    | none => simp [rmRun]
    | some u =>
      by_cases h2 : r.status = 200
      · simp only [rmRun, h2, if_true, reduceIte] at hns ⊢
        have htail := ih (if retrying then h else h + 1) r.next [] 1875 false hns
        simp only [Bool.false_eq_true, false_and, if_false] at htail
        cases retrying
        all_goals simp_all
        all_goals omega
      · by_cases h5 : r.status = 500
        · by_cases hrt : 60000 < rt
          · simp only [rmRun, h2, h5, hrt, reduceIte] at hns ⊢
            cases retrying
            all_goals simp_all
          · simp only [rmRun, h2, h5, hrt, reduceIte] at hns ⊢
            have htail := ih (if retrying then h else h + 1) (some u) ps (rt * 2) true hns
            simp only [Option.isSome_some, and_true, true_and, if_true] at htail
            cases retrying <;> simp_all <;> omega
        · simp only [rmRun, h2, h5, reduceIte] at hns ⊢
          cases retrying
          all_goals simp_all

-- `_cache_obj` never touches the request counter.
theorem cacheObj_httpReq {J : Type} (e : Engine J) (r : URI) (j : J) :
    (cacheObj e r j).httpReq = e.httpReq := by
  rcases h : e.cacheDir with _ | d <;> simp [cacheObj, h]

/-- C4 (amended): for one DataTracker instance the request counter increases
by exactly one per rate-limited request — one per page attempt of a
collection fetch and one per uncached single-record fetch — while a
500-retry re-issues the HTTP request without incrementing it (GET count =
counter increments + backoff sleeps); the connection is cycled before each
request that brings the counter to a multiple of 100: no cycle during the
first 99 requests, and — the amendment forced by `c4_counterexample` — the
first cycle happens before request 100 is issued (when the counter reaches
100), not after 100 requests before request 101; a cache hit performs no
network request, leaves the counter unchanged, and cycles nothing. -/
theorem c4_request_counter :
    (∀ n, n + 1 < 100 → (rateLimit n).2 = false) ∧
    (rateLimit 99).2 = true ∧
    (∀ n, ((rateLimit n).2 = true ↔ (n + 1) % 100 = 0)) ∧
    (∀ (J T : Type) (net : URI → SingleResp J) (pav : J → T) (e : Engine J) (r : URI),
      objIsCached e r = true →
        (retrieve net pav e r).netRequests = 0 ∧
        (retrieve net pav e r).engine.httpReq = e.httpReq ∧
        (retrieve net pav e r).cycled = false) ∧
    (∀ (J T : Type) (net : URI → SingleResp J) (pav : J → T) (e : Engine J) (r : URI),
      objIsCached e r = false →
        (retrieve net pav e r).netRequests = 1 ∧
        (retrieve net pav e r).engine.httpReq = e.httpReq + 1) ∧
    (∀ (α : Type) (h0 : Nat) (u : String) (ps : Params) (rs : List (PageResponse α)),
      (retrieveMulti h0 u ps rs).outcome ≠ .starved →
        (retrieveMulti h0 u ps rs).requests.length
          = (retrieveMulti h0 u ps rs).rateLimited
            + (retrieveMulti h0 u ps rs).sleeps.length) := by
  refine ⟨?_, by decide, ?_, ?_, ?_, ?_⟩
  · intro n h
    simp [rateLimit]
    omega
  · intro n
    simp [rateLimit]
  · intro J T net pav e r hcache
    rcases hcd : e.cacheDir with _ | d
    · simp [objIsCached, hcd] at hcache
    · rcases hl : List.lookup (cacheFilepath d r) e.cache with _ | j
      · simp [objIsCached, hcd, hl] at hcache
      · simp [retrieve, hcd, hl]
  · intro J T net pav e r hmiss
    have hnet : retrieve net pav e r = retrieveNet net pav e r := by
      rcases hcd : e.cacheDir with _ | d
      · simp [retrieve, hcd]
      · rcases hl : List.lookup (cacheFilepath d r) e.cache with _ | j
        · simp [retrieve, hcd, hl]
        · simp [objIsCached, hcd, hl] at hmiss
    rw [hnet]
    by_cases h2 : (net r).status = 200
    · simp [retrieveNet, h2, rateLimit, cacheObj_httpReq]
    · by_cases h4 : (net r).status = 404
      · simp [retrieveNet, h2, h4, rateLimit]
      · simp [retrieveNet, h2, h4, rateLimit]
  · intro α h0 u ps rs hns
    have h := rmRun_request_count rs h0 (some u)
      (dictSet ps "limit" (PVal.s "100")) 1875 false hns
    simpa [retrieveMulti] using h

/-- C4 counterexample: the claim as stated fails twice on the code.  The
rate limiter cycles the connection when the counter hits 100 — i.e. during
the call made for the 100th request, after only 99 requests have been
issued — and does NOT cycle at the call for request 101; and a page
answered 500-then-200 issues two HTTP requests while incrementing the
counter only once, so the counter does not increase by one per HTTP
request issued. -/
theorem c4_counterexample :
    (rateLimit 99).2 = true ∧
    (rateLimit 100).2 = false ∧
    (retrieveMulti 0 "/api/v1/person/person/" []
      ([⟨500, none, []⟩, ⟨200, none, []⟩] : List (PageResponse Nat))).requests.length = 2 ∧
    (retrieveMulti 0 "/api/v1/person/person/" []
      ([⟨500, none, []⟩, ⟨200, none, []⟩] : List (PageResponse Nat))).rateLimited = 1 := by
  decide

/-- Witness for C4: concrete cache hit (counter stays 5, zero requests),
concrete uncached fetch (counter 0 → 1), and a 500-then-200 run satisfying
GETs = increments + sleeps. -/
theorem c4_request_counter_witness :
    (rateLimit 0).2 = false ∧
    (retrieve (fun _ => ⟨200, (0 : Nat)⟩) id
      ⟨5, some "c", [("c/api/v1/person/person/1.json", (42 : Nat))]⟩
      ⟨"/api/v1/person/person/1/", []⟩).netRequests = 0 ∧
    (retrieve (fun _ => ⟨200, (0 : Nat)⟩) id
      ⟨5, some "c", [("c/api/v1/person/person/1.json", (42 : Nat))]⟩
      ⟨"/api/v1/person/person/1/", []⟩).engine.httpReq = 5 ∧
    (retrieve (fun _ => ⟨200, (0 : Nat)⟩) id
      ⟨0, none, []⟩ ⟨"/api/v1/person/person/1/", []⟩).engine.httpReq = 1 ∧
    (retrieveMulti 0 "/api/v1/person/person/" []
      ([⟨500, none, []⟩, ⟨200, none, []⟩] : List (PageResponse Nat))).requests.length
      = (retrieveMulti 0 "/api/v1/person/person/" []
          ([⟨500, none, []⟩, ⟨200, none, []⟩] : List (PageResponse Nat))).rateLimited
        + (retrieveMulti 0 "/api/v1/person/person/" []
            ([⟨500, none, []⟩, ⟨200, none, []⟩] : List (PageResponse Nat))).sleeps.length := by
  have h := c4_request_counter
  refine ⟨h.1 0 (by norm_num), ?_, ?_, ?_, ?_⟩
  · exact (h.2.2.2.1 Nat Nat (fun _ => ⟨200, 0⟩) id
      ⟨5, some "c", [("c/api/v1/person/person/1.json", 42)]⟩
      ⟨"/api/v1/person/person/1/", []⟩ (by decide)).1
  · exact (h.2.2.2.1 Nat Nat (fun _ => ⟨200, 0⟩) id
      ⟨5, some "c", [("c/api/v1/person/person/1.json", 42)]⟩
      ⟨"/api/v1/person/person/1/", []⟩ (by decide)).2.1
  · exact (h.2.2.2.2.1 Nat Nat (fun _ => ⟨200, 0⟩) id
      ⟨0, none, []⟩ ⟨"/api/v1/person/person/1/", []⟩ rfl).2
  · exact h.2.2.2.2.2 Nat 0 "/api/v1/person/person/" []
      [⟨500, none, []⟩, ⟨200, none, []⟩] (by decide)

/-- C5 (amended): `documents` maps only non-null filters to query
parameters — omitted doctype/group contribute nothing, present ones
contribute exactly their slug/id — but `people` (like `emails` and
`document_aliases`) assigns its `name__contains` key unconditionally, so an
omitted filter contributes a query parameter with a null value (which the
HTTP layer, not the Identifier construction, later drops). -/
theorem c5_filter_params (since until_ : String) :
    (∀ t g, documentsParams since until_ (some t) (some g)
      = [("time__gt", PVal.s since), ("time__lt", PVal.s until_),
         ("type", PVal.s t), ("group", PVal.i g)]) ∧
    (documentsParams since until_ none none
      = [("time__gt", PVal.s since), ("time__lt", PVal.s until_)]) ∧
    (∀ nc, peopleParams since until_ nc
      = [("time__gte", PVal.s since), ("time__lt", PVal.s until_),
         ("name__contains", match nc with | some v => PVal.s v | none => PVal.null)]) := by
  refine ⟨?_, ?_, ?_⟩
  · intro t g
    simp [documentsParams, dictSet]
  · simp [documentsParams, dictSet]
  · intro nc
    cases nc <;> simp [peopleParams, dictSet]

/-- C5 counterexample: the claim as stated fails — `people` called with the
default (null) `name_contains` still maps the `name__contains` key into the
identifier's query parameters, with value None. -/
theorem c5_counterexample :
    ("name__contains", PVal.null)
      ∈ peopleParams "1970-01-01T00:00:00" "2038-01-19T03:14:07" none := by
  decide

/-- C6: `document_from_rfc` performs exactly one alias lookup and at most
one document fetch; with exactly one alias match it returns the single
(optional) Document fetched through the alias, not a sequence; with zero
matches it yields no document (absence); with two or more matches it raises
`RuntimeError` (the `.error ()` outcome) without fetching or picking any
result. -/
theorem c6_document_from_rfc {δ : Type} (aliases : List DocAlias)
    (fetch : String → Option δ) :
    (documentFromRfc aliases fetch).aliasLookups = 1 ∧
    (documentFromRfc aliases fetch).docFetches ≤ 1 ∧
    (∀ a, aliases = [a] →
      (documentFromRfc aliases fetch).result = .ok (fetch a.document) ∧
      (documentFromRfc aliases fetch).docFetches = 1) ∧
    (2 ≤ aliases.length →
      (documentFromRfc aliases fetch).result = .error () ∧
      (documentFromRfc aliases fetch).docFetches = 0) ∧
    (aliases = [] →
      (documentFromRfc aliases fetch).result = .ok none ∧
      (documentFromRfc aliases fetch).docFetches = 0) := by
  rcases aliases with _ | ⟨a, _ | ⟨b, rest⟩⟩ <;> simp [documentFromRfc]

/-- Witness for C6: one alias match returns the fetched document after one
fetch; two matches raise; zero matches return absence. -/
theorem c6_document_from_rfc_witness :
    (documentFromRfc [⟨"/api/v1/doc/document/draft-x/"⟩]
      (fun _ => (some 5 : Option Nat))).result = .ok (some 5) ∧
    (documentFromRfc [⟨"/api/v1/doc/document/draft-x/"⟩]
      (fun _ => (some 5 : Option Nat))).docFetches = 1 ∧
    (documentFromRfc [⟨"/api/v1/doc/document/a/"⟩, ⟨"/api/v1/doc/document/b/"⟩]
      (fun _ => (some 5 : Option Nat))).result = .error () ∧
    (documentFromRfc ([] : List DocAlias)
      (fun _ => (some 5 : Option Nat))).result = .ok none := by
  refine ⟨?_, ?_, ?_, ?_⟩
  · exact ((c6_document_from_rfc [⟨"/api/v1/doc/document/draft-x/"⟩]
      (fun _ => (some 5 : Option Nat))).2.2.1 ⟨"/api/v1/doc/document/draft-x/"⟩ rfl).1
  · exact ((c6_document_from_rfc [⟨"/api/v1/doc/document/draft-x/"⟩]
      (fun _ => (some 5 : Option Nat))).2.2.1 ⟨"/api/v1/doc/document/draft-x/"⟩ rfl).2
  · exact ((c6_document_from_rfc [⟨"/api/v1/doc/document/a/"⟩, ⟨"/api/v1/doc/document/b/"⟩]
      (fun _ => (some 5 : Option Nat))).2.2.2.1 (by decide)).1
  · exact ((c6_document_from_rfc ([] : List DocAlias)
      (fun _ => (some 5 : Option Nat))).2.2.2.2 rfl).1

/-- C7: constructing a typed resource identifier (`DocumentURI`) whose path
does not start with the prefix declared for documents fails immediately
(the `__post_init__` assert); for every correctly prefixed path the
construction succeeds and the identifier's path and params equal the
arguments unchanged. -/
theorem c7_uri_validation (p : String) (ps : Params) :
    (pyStartsWith p documentUriStart = false → mkDocumentURI p ps = none) ∧
    (pyStartsWith p documentUriStart = true → mkDocumentURI p ps = some ⟨p, ps⟩) := by
  constructor
  · intro h
    simp [mkDocumentURI, h]
  · intro h
    simp [mkDocumentURI, h]

/-- Witness for C7: a document path round-trips unchanged; a group path is
rejected by the document constructor. -/
theorem c7_uri_validation_witness :
    mkDocumentURI "/api/v1/doc/document/rfc3550/" []
      = some ⟨"/api/v1/doc/document/rfc3550/", []⟩ ∧
    mkDocumentURI "/api/v1/group/group/42/" [] = none :=
  ⟨(c7_uri_validation "/api/v1/doc/document/rfc3550/" []).2 (by decide),
   (c7_uri_validation "/api/v1/group/group/42/" []).1 (by decide)⟩

-- On any path that both starts and ends with a slash, Python's `uri[1:-1]`
-- (drop the first and last character) coincides with stripping the leading
-- and trailing slash.
theorem pySlice_eq_strip (u : String) (hh : u.data.head? = some '/')
    (hl : u.data.getLast? = some '/') : pySlice1m1 u = specStripSlash u := by
  simp only [pySlice1m1, specStripSlash, hh, reduceIte]
  rcases hu : u.data with _ | ⟨c, tl⟩
  · simp [hu] at hh
  · rcases List.eq_nil_or_concat tl with h0 | ⟨l, x, hx⟩
    · subst h0
      simp [hu]
    · subst hx
      have hx' : x = '/' := by
        rw [hu, List.concat_eq_append, ← List.cons_append, List.getLast?_concat] at hl
        exact (Option.some_inj.mp hl)
      subst hx'
      simp [hu, List.concat_eq_append, List.getLast?_concat]

/-- C8 (amended): the cache file path is a deterministic function of the
identifier's path alone — two identifiers with equal paths and different
params always map to the same cache file — and it equals
cache-root + (path with leading/trailing slash stripped) + ".json" for
every path that starts AND ends with a slash; in general (the amendment
forced by `c8_counterexample`) the code strips the first and last
*character* of the path, which differs from slash-stripping on paths
without a trailing slash. -/
theorem c8_cache_path (d u : String) (p1 p2 : Params) :
    cacheFilepath d ⟨u, p1⟩ = cacheFilepath d ⟨u, p2⟩ ∧
    (u.data.head? = some '/' → u.data.getLast? = some '/' →
      cacheFilepath d ⟨u, p1⟩ = specCachePath d ⟨u, p1⟩) := by
  constructor
  · rfl
  · intro hh hl
    simp [cacheFilepath, specCachePath, pySlice_eq_strip u hh hl]

/-- C8 counterexample: "/api/v1/doc/document/x" is accepted by the
`DocumentURI` prefix validation, yet its cache file
("cache/api/v1/doc/document/.json" — the code chops the final 'x') differs
from the claimed cache-root + slash-stripped-path + ".json"
("cache/api/v1/doc/document/x.json"). -/
theorem c8_counterexample :
    mkDocumentURI "/api/v1/doc/document/x" [("a", PVal.s "b")]
      = some ⟨"/api/v1/doc/document/x", [("a", PVal.s "b")]⟩ ∧
    cacheFilepath "cache" ⟨"/api/v1/doc/document/x", [("a", PVal.s "b")]⟩
      ≠ specCachePath "cache" ⟨"/api/v1/doc/document/x", [("a", PVal.s "b")]⟩ := by
  decide

/-- Witness for C8: params do not affect the cache file, and on a real
resource path (leading and trailing slash) the code's path equals the
spec's slash-stripped formula. -/
theorem c8_cache_path_witness :
    cacheFilepath "cache" ⟨"/api/v1/person/person/20209/", [("a", PVal.s "b")]⟩
      = cacheFilepath "cache" ⟨"/api/v1/person/person/20209/", []⟩ ∧
    cacheFilepath "cache" ⟨"/api/v1/person/person/20209/", []⟩
      = specCachePath "cache" ⟨"/api/v1/person/person/20209/", []⟩ :=
  ⟨(c8_cache_path "cache" "/api/v1/person/person/20209/" [("a", PVal.s "b")] []).1,
   (c8_cache_path "cache" "/api/v1/person/person/20209/" [] []).2 (by decide) (by decide)⟩

/-- C10: in a collection fetch over any well-formed all-200 script, the
forced `limit=100` and the caller's filter parameters are sent as explicit
query parameters only on the first request; every page advance replaces the
identifier by `URI(meta.next)` whose params dict is the dataclass default
`{}`, so each subsequent request is addressed to the server's next-page URI
string with an empty explicit parameter map. -/
theorem c10_page_params {α : Type} (h0 : Nat) (u : String) (ps : Params)
    (s : List (PageResponse α)) (hg : GoodScript s) :
    (retrieveMulti h0 u ps s).requests
      = (u, dictSet ps "limit" (PVal.s "100"))
        :: (scriptNexts s).map (fun v => (v, ([] : Params))) := by
  simp [retrieveMulti, rmRun_goodScript hg]

/-- Witness for C10: a two-page fetch with a filter parameter — the first
request carries the filter plus limit=100, the second only the next-page
URI. -/
theorem c10_page_params_witness :
    (retrieveMulti 0 "/api/v1/doc/document/" [("type", PVal.s "rfc")]
      ([⟨200, some "/api/v1/doc/document/?limit=100&offset=100", [1]⟩,
        ⟨200, none, [2]⟩] : List (PageResponse Nat))).requests
      = [("/api/v1/doc/document/", [("type", PVal.s "rfc"), ("limit", PVal.s "100")]),
         ("/api/v1/doc/document/?limit=100&offset=100", [])] :=
  (c10_page_params 0 "/api/v1/doc/document/" [("type", PVal.s "rfc")] _
    (GoodScript.cons "/api/v1/doc/document/?limit=100&offset=100" [1]
      (GoodScript.last [2]))).trans (by decide)
